import Mathlib

/-!
Verification of the arxiv-browse dissemination core against its specification.

This file gives a shallow embedding of the resolution logic of
`arxiv_dissemination/services/article_store.py` and of the format-derivation
rules of `browse/services/documents/format_codes.py`, and proves the
specification claims about them.

Modelling conventions:
* The object store is external to the core (spec §6); it is embedded as a
  structure of functions `listKeys` / `existsKey` / `readLines`.  `readLines`
  returns `none` for a key that cannot be opened (Python `open` raising).
* Python exceptions are embedded as `PyResult.raise` carrying the message;
  domain conditions are ordinary values (`Conditions`), mirroring the
  `Union[Conditions, FileObj]` return types of the source.
* The date parser `dateutil.parser.parse` is an external library; it is
  embedded as a parameter `pd : String → Option Nat` (`none` = the library
  raises, `some t` = the parsed date, abstracted to a timestamp).
* Regular expressions of the source are translated to equivalent
  deterministic character-list functions; the lines fed to them come from a
  line splitter and therefore contain no newline characters, which is the
  domain on which the translation is exact.
* The module `key_patterns` is not part of the sources; its path builders
  are modelled from the spec (§4.1, §2): pure, deterministic, injective-in-
  the-inputs path string builders, one per storage tier.
-/

/-- Embedding of a Python `str.strip` based whitespace test: the ASCII
whitespace characters recognised by Python's `\s` and `strip`. -/
def isPyWs (c : Char) : Bool :=
  c = ' ' || c = '\t' || c = '\n' || c = '\r' || c = Char.ofNat 11 || c = Char.ofNat 12

/-- Python `int` applied to a string of decimal digits. -/
def natOfDigits (ds : List Char) : Nat :=
  ds.foldl (fun a c => a * 10 + (c.toNat - 48)) 0

/-- Removal of a literal character prefix; `none` when the characters do
not start with it. -/
def stripPref : List Char → List Char → Option (List Char)
  | [], cs => some cs
  | _ :: _, [] => none
  | p :: ps, c :: cs => if p = c then stripPref ps cs else none

/-- Embedding of Python `str.startswith`. -/
def startswith (s pre : String) : Bool :=
  (stripPref pre.toList s.toList).isSome

/-- Embedding of Python `str.strip`: removal of leading and trailing
whitespace. -/
def pyStrip (s : String) : String :=
  String.mk (((s.toList.dropWhile isPyWs).reverse.dropWhile isPyWs).reverse)

/-- Containment of a substring, embedding Python `re.search` with a literal
pattern (no metacharacters). -/
def containsSubstr (s pat : String) : Bool :=
  decide (pat.toList <:+: s.toList)

/-- Containment of any of the given characters, embedding Python
`re.search` on a single-letter pattern with `re.IGNORECASE` (the list holds
both cases). -/
def containsChar (s : String) (cs : List Char) : Bool :=
  s.toList.any fun c => cs.contains c

/-- Embedding of Python `str.endswith`. -/
def endswith (s suf : String) : Bool :=
  decide (suf.toList <:+ s.toList)

/-- Result of a Python function that may raise: either a value or an
exception message. -/
inductive PyResult (α : Type) where
  | ok : α → PyResult α
  | raise : String → PyResult α
deriving DecidableEq, Repr

/-- Identifier contract required from the `arxiv.identifier` collaborator
(spec §6): base filename and optional version. -/
structure Identifier where
  filename : String
  version : Option Nat
deriving DecidableEq, Repr

/-- Python `Identifier.has_version`: the identifier carries an explicit
version. -/
def Identifier.has_version (arxiv_id : Identifier) : Bool :=
  arxiv_id.version.isSome

/-- The numeric value of the identifier's version where the source reads
`arxiv_id.version` in a branch in which it is known to be present. -/
def Identifier.versionN (arxiv_id : Identifier) : Nat :=
  arxiv_id.version.getD 0

/-- Object handle: a reference to a blob at a specific key, as returned by
`objstore.to_obj` or `objstore.list`. -/
structure FileObj where
  key : String
deriving DecidableEq, Repr

/-- Terminal path segment of an object's key (the `name` accessor of the
object-store contract, spec §6). -/
def FileObj.name (f : FileObj) : String :=
  String.mk (f.key.toList.foldl (fun acc c => if c = '/' then [] else acc ++ [c]) [])

/-- Object-store contract required from the collaborator (spec §6):
list-by-prefix, existence check, and line-wise read (`none` when the key
cannot be opened). -/
structure ObjectStore where
  listKeys : String → List FileObj
  existsKey : String → Bool
  readLines : String → Option (List String)

/-- Modelled from the spec: `key_patterns.abs_path_current_parent`, the
current-tier parent directory of an identifier's descriptor. -/
def abs_path_current_parent (arxiv_id : Identifier) : String :=
  "ftp/" ++ arxiv_id.filename

/-- Modelled from the spec: `key_patterns.abs_path_current`, the
current-tier descriptor key. -/
def abs_path_current (arxiv_id : Identifier) : String :=
  abs_path_current_parent arxiv_id ++ "/" ++ arxiv_id.filename ++ ".abs"

/-- Modelled from the spec: `key_patterns.abs_path_orig_parent`, the
archived-tier parent directory of an identifier's per-version entries. -/
def abs_path_orig_parent (arxiv_id : Identifier) : String :=
  "orig/" ++ arxiv_id.filename

/-- Modelled from the spec: `key_patterns.abs_path_orig`, the archived-tier
descriptor key at a specific version. -/
def abs_path_orig (arxiv_id : Identifier) (version : Nat) : String :=
  abs_path_orig_parent arxiv_id ++ "/" ++ arxiv_id.filename ++ "v" ++ toString version ++ ".abs"

/-- Modelled from the spec: `key_patterns.ps_cache_pdf_path`, the
cache-tier rendition key, keyed by format and version. -/
def ps_cache_pdf_path (format : String) (arxiv_id : Identifier) (version : Nat) : String :=
  "ps_cache/" ++ format ++ "/" ++ arxiv_id.filename ++ "v" ++ toString version ++ "." ++ format

/-- Modelled from the spec: `key_patterns.current_pdf_path`, the
current-tier primary rendition key. -/
def current_pdf_path (arxiv_id : Identifier) : String :=
  abs_path_current_parent arxiv_id ++ "/" ++ arxiv_id.filename ++ ".pdf"

/-- Modelled from the spec: `key_patterns.previous_pdf_path`, the fixed
legacy location of the pre-rendered rendition for the version carried by the
identifier. -/
def previous_pdf_path (arxiv_id : Identifier) : String :=
  "orig/pdf/" ++ arxiv_id.filename ++ "v" ++ toString arxiv_id.versionN ++ ".pdf"

/-- Closed enumeration of terminal outcomes, from `article_store.Conditions`
(the misspelling `UNAVAIABLE` is the source's). -/
inductive Conditions where
  | WITHDRAWN
  | ARTICLE_NOT_FOUND
  | VERSION_NOT_FOUND
  | NO_SOURCE
  | UNAVAIABLE
deriving DecidableEq, Repr

/-- Conditions returned by descriptor resolution, from
`article_store.AbsConditions`. -/
inductive AbsConditions where
  | ARTICLE_NOT_FOUND
  | VERSION_NOT_FOUND
  | NO_ID
deriving DecidableEq, Repr

/-- Embedding of `v_regex = re.compile(r'.*v(\d+)')` used with `.search`:
the greedy `.*` makes the match capture the maximal digit run following the
last `v`-followed-by-a-digit in the name; `none` when no `v` is followed by
a digit. -/
def lastVNum : List Char → Option Nat
  | [] => none
  | c :: rest =>
    match lastVNum rest with
    | some n => some n
    | none =>
      if c = 'v' then
        match rest.span Char.isDigit with
        | (ds, _) => if ds = [] then none else some (natOfDigits ds)
      else none

/-- Embedding of `article_store._path_to_version`: version number parsed
from the trailing `vN` suffix of an entry's name, defaulting to 0. -/
def _path_to_version (path : FileObj) : Nat :=
  (lastVNum path.name.toList).getD 0

/-- Embedding of `ArticleStore.current_version`. -/
def current_version (os : ObjectStore) (arxiv_id : Identifier) : Option Nat :=
  let orgPref := abs_path_orig_parent arxiv_id ++ "/" ++ arxiv_id.filename
  let abs_versions := os.listKeys orgPref
  if abs_versions ≠ [] then
    some ((abs_versions.map _path_to_version).foldl Nat.max 0 + 1)
  else if os.existsKey (abs_path_current arxiv_id) then
    some 1
  else
    none

/-- Embedding of `ArticleStore.abs_for_id` (the unused `any` parameter of
the source is omitted; Python default arguments `version=0, current=0`). -/
def abs_for_id (os : ObjectStore) (arxiv_id : Identifier)
    (version : Nat := 0) (current : Nat := 0) : FileObj ⊕ AbsConditions :=
  let first_version := (version != 0 && version == 1) || arxiv_id.version == some 1
  if current != 0 || !arxiv_id.has_version || first_version then
    let absObj : FileObj := ⟨abs_path_current arxiv_id⟩
    if os.existsKey absObj.key then Sum.inl absObj
    else Sum.inr AbsConditions.ARTICLE_NOT_FOUND
  else
    let version := if version != 0 then version else arxiv_id.versionN
    let absObj : FileObj := ⟨abs_path_orig arxiv_id version⟩
    if os.existsKey absObj.key then Sum.inl absObj
    else
      let absObj2 : FileObj := ⟨abs_path_orig arxiv_id (arxiv_id.versionN - 1)⟩
      if os.existsKey absObj2.key then Sum.inl absObj2
      else Sum.inr AbsConditions.VERSION_NOT_FOUND

/-- Captured groups of a successful `RE_DATE_COMPONENTS` match: the
optional revised-version label, the date text, and the optional
parenthesized pair of size digits and source-type text (both are captured
together or not at all, as in the regex). -/
structure DateGroups where
  version : Option String
  date : String
  sizeSrc : Option (String × String)
deriving DecidableEq, Repr

/-- Split at the first occurrence of the two-character sequence `):`,
embedding the lazy group `(?P<version>.*?)\):` of `RE_DATE_COMPONENTS`. -/
def splitAtCloseColon : List Char → Option (List Char × List Char)
  | ')' :: ':' :: rest => some ([], rest)
  | c :: rest =>
    match splitAtCloseColon rest with
    | some (a, b) => some (c :: a, b)
    | none => none
  | [] => none

/-- Embedding of the optional tail group
`\s+\((?P<size_kilobytes>\d+)kb,?(?P<source_type>.*)\)` of
`RE_DATE_COMPONENTS`, followed by `$`: one or more whitespace, an opening
parenthesis, a maximal nonempty digit run, the literal `kb`, an optional
comma, then the source-type text up to a closing parenthesis that must be
the last character. -/
def tailMatch (cs : List Char) : Option (String × String) :=
  match cs.span isPyWs with
  | (ws, cs1) =>
    if ws = [] then none
    else
      match cs1 with
      | '(' :: cs2 =>
        match cs2.span Char.isDigit with
        | (ds, cs3) =>
          if ds = [] then none
          else
            match stripPref ['k', 'b'] cs3 with
            | none => none
            | some cs4 =>
              let cs5 := match cs4 with
                | ',' :: r => r
                | _ => cs4
              match cs5.reverse with
              | ')' :: revSrc => some (String.mk ds, String.mk revSrc.reverse)
              | _ => none
      | _ => none

/-- Lazy split for the group `(?P<date>.*?)` of `RE_DATE_COMPONENTS`: the
shortest date prefix after which the optional tail group matches; when no
position admits the tail, the date is the whole remainder and the tail
groups are absent. -/
def dateSplit : List Char → List Char × Option (String × String)
  | [] => ([], none)
  | c :: rest =>
    match tailMatch (c :: rest) with
    | some r => ([], some r)
    | none =>
      match dateSplit rest with
      | (d, r) => (c :: d, r)

/-- Shared continuation of `matchDateLine` after the colon of either
alternation branch: greedy `\s*`, then the lazy date group and the optional
size group. -/
def afterColon (ver : Option String) (cs : List Char) : Option DateGroups :=
  match (cs.span isPyWs).2 with
  | cs1 =>
    match dateSplit cs1 with
    | (d, t) => some { version := ver, date := String.mk d, sizeSrc := t }

/-- Embedding of `RE_DATE_COMPONENTS.match` on a newline-free line:
`^Date\s*(?::|\(revised\s*(?P<version>.*?)\):)\s*(?P<date>.*?)`
`(?:\s+\((?P<size_kilobytes>\d+)kb,?(?P<source_type>.*)\))?$`. -/
def matchDateLine (s : String) : Option DateGroups :=
  match stripPref ['D', 'a', 't', 'e'] s.toList with
  | none => none
  | some cs0 =>
    match (cs0.span isPyWs).2 with
    | ':' :: cs2 => afterColon none cs2
    | cs1 =>
      match stripPref ['(', 'r', 'e', 'v', 'i', 's', 'e', 'd'] cs1 with
      | none => none
      | some cs2 =>
        match splitAtCloseColon ((cs2.span isPyWs).2) with
        | none => none
        | some (ver, cs4) => afterColon (some (String.mk ver)) cs4

/-- One parsed entry of the descriptor, from the dict built by
`ArticleStore._parse_version_entries` (the date is the abstract timestamp
produced by the date-parser parameter). -/
structure VersionEntry where
  raw : String
  source_type : String
  size_kilobytes : Nat
  submitted_date : Nat
  version : Nat
deriving DecidableEq, Repr

/-- Exception message used by the source for an unmatched date line. -/
def msgNoMatch : String := "Could not extract date components from date line."

/-- Exception message used by the source for an unparseable date. -/
def msgBadDate : String := "Could not parse submitted date as datetime"

/-- Message of the `TypeError` Python raises at
`int(date_match.group('size_kilobytes'))` when the optional size group did
not participate in the match. -/
def msgIntNone : String := "TypeError: int() argument cannot be None"

/-- Message of the `IndexError` Python raises when indexing an empty
version list. -/
def msgIndex : String := "IndexError: list index out of range"

/-- Message of the `FileNotFoundError` Python raises when opening a key
that does not exist. -/
def msgNoFile : String := "FileNotFoundError"

/-- Message of the exception raised by `dissemination_for_id` for an
unsupported format. -/
def msgUnsupported : String := "Only PDF is currently supported"

/-- Loop body of `ArticleStore._parse_version_entries`: processes the lines
in order with a running count, stopping at the first hard error. -/
def parseEntriesAux (pd : String → Option Nat) : Nat → List String → PyResult (List VersionEntry)
  | _, [] => PyResult.ok []
  | n, l :: rest =>
    match matchDateLine l with
    | none => PyResult.raise msgNoMatch
    | some g =>
      match pd g.date with
      | none => PyResult.raise msgBadDate
      | some d =>
        match g.sizeSrc with
        | none => PyResult.raise msgIntNone
        | some (sz, st) =>
          match parseEntriesAux pd (n + 1) rest with
          | PyResult.raise e => PyResult.raise e
          | PyResult.ok ves =>
            PyResult.ok ({ raw := l, source_type := st,
                           size_kilobytes := natOfDigits sz.toList,
                           submitted_date := d, version := n + 1 } :: ves)

/-- Embedding of `ArticleStore._parse_version_entries`, parameterised by
the external date parser. -/
def _parse_version_entries (pd : String → Option Nat) (version_entry_list : List String) :
    PyResult (Nat × List VersionEntry) :=
  match parseEntriesAux pd 0 version_entry_list with
  | PyResult.raise e => PyResult.raise e
  | PyResult.ok ves => PyResult.ok (version_entry_list.length, ves)

/-- Skip phase of the dateline extraction loop in
`ArticleStore._source_type`: drop lines until the first delimiter line. -/
def skipToData : List String → List String
  | [] => []
  | l :: rest => if startswith (pyStrip l) "\\\\" then rest else skipToData rest

/-- Collection phase of the dateline extraction loop in
`ArticleStore._source_type`: collect stripped `Date` lines, stopping at the
closing delimiter line. -/
def collectDate : List String → List String
  | [] => []
  | l :: rest =>
    let s := pyStrip l
    if startswith s "Date" then s :: collectDate rest
    else if startswith s "\\\\" then []
    else collectDate rest

/-- Dateline extraction of `ArticleStore._source_type`: the stripped `Date`
lines of the section between the two delimiter lines. -/
def getDatelines (ls : List String) : List String :=
  collectDate (skipToData ls)

/-- Embedding of `ArticleStore._source_type`.  Python's `versions[-1]` and
`versions[arxiv_id.version-1]` are embedded index-exactly, including the
negative-index semantics when the identifier's version is 0. -/
def _source_type (pd : String → Option Nat) (os : ObjectStore) (arxiv_id : Identifier) :
    PyResult String :=
  let abs_key := abs_path_current arxiv_id
  match os.readLines abs_key with
  | none => PyResult.raise msgNoFile
  | some ls =>
    match _parse_version_entries pd (getDatelines ls) with
    | PyResult.raise e => PyResult.raise e
    | PyResult.ok (_, versions) =>
      if arxiv_id.has_version then
        let v := arxiv_id.versionN
        if versions.length < v then PyResult.ok ""
        else if v = 0 then
          match versions.getLast? with
          | some ve => PyResult.ok ve.source_type
          | none => PyResult.raise msgIndex
        else
          match versions.get? (v - 1) with
          | some ve => PyResult.ok ve.source_type
          | none => PyResult.raise msgIndex
      else
        match versions.getLast? with
        | some ve => PyResult.ok ve.source_type
        | none => PyResult.raise msgIndex

/-- Embedding of `ArticleStore.is_withdrawn`. -/
def is_withdrawn (pd : String → Option Nat) (os : ObjectStore) (arxiv_id : Identifier) :
    PyResult Bool :=
  match _source_type pd os arxiv_id with
  | PyResult.raise e => PyResult.raise e
  | PyResult.ok st => PyResult.ok (st = "I")

/-- Embedding of `src_regex = re.compile(r'.*(\.tar\.gz|\.pdf|\.ps\.gz|\.gz|\.div\.gz|\.html\.gz)')`
used with `.match`: the leading `.*` turns the anchored match into substring
containment of one of the alternatives (the `.div.gz` misspelling is the
source's). -/
def srcRegexMatch (name : String) : Bool :=
  containsSubstr name ".tar.gz" || containsSubstr name ".pdf" ||
  containsSubstr name ".ps.gz" || containsSubstr name ".gz" ||
  containsSubstr name ".div.gz" || containsSubstr name ".html.gz"

/-- Embedding of `ArticleStore._versioned_or_current`. -/
def _versioned_or_current (os : ObjectStore) (arxiv_id : Identifier) : Option (Nat × Bool) :=
  match current_version os arxiv_id with
  | none => none
  | some current_ver =>
    if arxiv_id.has_version then
      some (arxiv_id.versionN, arxiv_id.versionN == current_ver)
    else
      some (current_ver, true)

/-- Embedding of `ArticleStore._source_exists`. -/
def _source_exists (os : ObjectStore) (arxiv_id : Identifier) : Bool :=
  match _versioned_or_current os arxiv_id with
  | none => false
  | some (_, is_current) =>
    let parent := if is_current then abs_path_current_parent arxiv_id
                  else abs_path_orig_parent arxiv_id
    let pattern := parent ++ "/" ++ arxiv_id.filename
    let items := os.listKeys pattern
    if items.length > 1000 then true
    else items.any fun item => srcRegexMatch item.name

/-- Steps of `ArticleStore.dissemination_for_id_current` after the
cache-tier probe, factored out: the current-tier rendition probe, the
descriptor-resolution check, the withdrawal check and the source-existence
check.  None of these depend on the requested format. -/
def dissemination_current_postcache (pd : String → Option Nat) (os : ObjectStore)
    (arxiv_id : Identifier) : PyResult (FileObj ⊕ Conditions) :=
  let current_pdf : FileObj := ⟨current_pdf_path arxiv_id⟩
  if os.existsKey current_pdf.key then PyResult.ok (Sum.inl current_pdf)
  else
    match abs_for_id os arxiv_id with
    | Sum.inr AbsConditions.ARTICLE_NOT_FOUND =>
      PyResult.ok (Sum.inr Conditions.ARTICLE_NOT_FOUND)
    | Sum.inr AbsConditions.VERSION_NOT_FOUND =>
      PyResult.ok (Sum.inr Conditions.VERSION_NOT_FOUND)
    | _ =>
      match is_withdrawn pd os arxiv_id with
      | PyResult.raise e => PyResult.raise e
      | PyResult.ok w =>
        if w then PyResult.ok (Sum.inr Conditions.WITHDRAWN)
        else if !(_source_exists os arxiv_id) then
          PyResult.ok (Sum.inr Conditions.NO_SOURCE)
        else PyResult.ok (Sum.inr Conditions.UNAVAIABLE)

/-- Embedding of `ArticleStore.dissemination_for_id_current`. -/
def dissemination_for_id_current (pd : String → Option Nat) (os : ObjectStore)
    (format : String) (arxiv_id : Identifier) : PyResult (FileObj ⊕ Conditions) :=
  match current_version os arxiv_id with
  | none => PyResult.ok (Sum.inr Conditions.ARTICLE_NOT_FOUND)
  | some version =>
    let ps_cache_pdf : FileObj := ⟨ps_cache_pdf_path format arxiv_id version⟩
    if os.existsKey ps_cache_pdf.key then PyResult.ok (Sum.inl ps_cache_pdf)
    else dissemination_current_postcache pd os arxiv_id

/-- Embedding of `ArticleStore.dissemination_for_id`. -/
def dissemination_for_id (pd : String → Option Nat) (os : ObjectStore)
    (format : String) (arxiv_id : Identifier) : PyResult (FileObj ⊕ Conditions) :=
  if format ≠ "pdf" then PyResult.raise msgUnsupported
  else if !arxiv_id.has_version then dissemination_for_id_current pd os format arxiv_id
  else
    let ps_cache_pdf : FileObj := ⟨ps_cache_pdf_path format arxiv_id arxiv_id.versionN⟩
    if os.existsKey ps_cache_pdf.key then PyResult.ok (Sum.inl ps_cache_pdf)
    else
      let non_current_pdf : FileObj := ⟨previous_pdf_path arxiv_id⟩
      if os.existsKey non_current_pdf.key then PyResult.ok (Sum.inl non_current_pdf)
      else
        match current_version os arxiv_id with
        | none => PyResult.ok (Sum.inr Conditions.ARTICLE_NOT_FOUND)
        | some cur_version =>
          if arxiv_id.versionN > cur_version then
            PyResult.ok (Sum.inr Conditions.VERSION_NOT_FOUND)
          else
            let current_pdf : FileObj := ⟨current_pdf_path arxiv_id⟩
            if os.existsKey current_pdf.key then PyResult.ok (Sum.inl current_pdf)
            else
              match is_withdrawn pd os arxiv_id with
              | PyResult.raise e => PyResult.raise e
              | PyResult.ok w =>
                if w then PyResult.ok (Sum.inr Conditions.WITHDRAWN)
                else if !(_source_exists os arxiv_id) then
                  PyResult.ok (Sum.inr Conditions.WITHDRAWN)
                else PyResult.ok (Sum.inr Conditions.UNAVAIABLE)

/-- Extension table of `format_codes.VALID_SOURCE_EXTENSIONS`: valid source
file name extensions and their dissemination formats (`none` embeds the
Python entries whose second component is not a list). -/
def VALID_SOURCE_EXTENSIONS : List (String × Option (List String)) :=
  [(".tar.gz", none),
   (".pdf", some ["pdfonly"]),
   (".ps.gz", some ["pdf", "ps"]),
   (".gz", none),
   (".dvi.gz", none),
   (".html.gz", some ["html"])]

/-- Loop of `format_codes.formats_from_source_file_name` over the extension
table: first extension that is a suffix of the name and carries a format
list wins. -/
def formatsFromExtList (p : String) : List (String × Option (List String)) → List String
  | [] => []
  | (ext, fmts) :: rest =>
    if endswith p ext then
      match fmts with
      | some l => l
      | none => formatsFromExtList p rest
    else formatsFromExtList p rest

/-- Embedding of `format_codes.formats_from_source_file_name`. -/
def formats_from_source_file_name (source_file_path : String) : List String :=
  if source_file_path = "" then []
  else formatsFromExtList source_file_path VALID_SOURCE_EXTENSIONS

/-- Embedding of `format_codes.formats_from_source_flag` (the preference
`none` embeds Python's default `format_pref=None`). -/
def formats_from_source_flag (source_flag : String) (format_pref : Option String)
    (cache_flag : Bool) : List String :=
  let fp := format_pref.getD ""
  let has_encrypted_source := containsChar source_flag ['S', 's']
  let has_ignore := containsChar source_flag ['I', 'i']
  let has_ps_only := containsChar source_flag ['P', 'p']
  let has_pdflatex := containsChar source_flag ['D', 'd']
  let has_pdf_only := containsChar source_flag ['F', 'f']
  let has_html := containsChar source_flag ['H', 'h']
  let has_docx_or_odf := containsChar source_flag ['X', 'O', 'x', 'o']
  let has_src_pref := containsSubstr fp "src"
  if has_ignore && !has_encrypted_source then ["src"]
  else if has_ps_only then ["pdf", "ps", "other"]
  else if has_pdflatex then
    if has_src_pref && !has_encrypted_source then ["pdf", "src", "other"]
    else ["pdf", "other"]
  else if has_pdf_only then ["pdf", "other"]
  else if has_html then ["html", "other"]
  else if has_docx_or_odf then ["pdf", "other"]
  else if cache_flag then ["nops", "other"]
  else
    (if containsSubstr fp "pdf" then ["pdf"]
     else if containsSubstr fp "400" then ["ps(400)"]
     else if containsSubstr fp "600" then ["ps(600)"]
     else if containsSubstr fp "fname=cm" then ["ps(cm)"]
     else if containsSubstr fp "fname=CM" then ["ps(CM)"]
     else if containsSubstr fp "dvi" then ["dvi"]
     else if has_src_pref then
       ["pdf", "ps"] ++ (if !has_encrypted_source then ["src"] else [])
     else ["pdf", "ps"]) ++ ["other"]

/-! ## Helper lemmas -/

/-- Lower bound for a left fold with `Nat.max`: the seed never exceeds it. -/
lemma le_foldl_max (l : List Nat) (a : Nat) : a ≤ l.foldl Nat.max a := by
  induction l generalizing a with
  | nil => exact Nat.le_refl a
  | cons x xs ih => exact Nat.le_trans (Nat.le_max_left a x) (ih (Nat.max a x))

/-- Lower bound for a left fold with `Nat.max`: no member exceeds it. -/
lemma mem_le_foldl_max (l : List Nat) : ∀ (a x : Nat), x ∈ l → x ≤ l.foldl Nat.max a := by
  induction l with
  | nil => intro a x hx; cases hx
  | cons y ys ih =>
    intro a x hx
    rcases List.mem_cons.mp hx with rfl | hmem
    · exact Nat.le_trans (Nat.le_max_right a x) (le_foldl_max ys (Nat.max a x))
    · exact ih (Nat.max a y) x hmem

/-- The value of a left fold with `Nat.max` is the seed or a member. -/
lemma foldl_max_mem (l : List Nat) : ∀ a : Nat,
    l.foldl Nat.max a = a ∨ l.foldl Nat.max a ∈ l := by
  induction l with
  | nil => intro a; exact Or.inl rfl
  | cons x xs ih =>
    intro a
    rcases ih (Nat.max a x) with h | h
    · rcases Nat.le_total a x with hm | hm
      · have hx : Nat.max a x = x := max_eq_right hm
        exact Or.inr (by rw [List.foldl_cons, h, hx]; exact List.mem_cons_self x xs)
      · have hx : Nat.max a x = a := max_eq_left hm
        exact Or.inl (by rw [List.foldl_cons, h, hx])
    · exact Or.inr (List.mem_cons_of_mem x h)

/-- Two suffixes of the same list are comparable; the shorter is a suffix
of the longer. -/
lemma suffix_of_suffix_of_le {s a b : List Char} (ha : a <:+ s) (hb : b <:+ s)
    (hlen : b.length ≤ a.length) : b <:+ a := by
  rcases List.suffix_or_suffix_of_suffix ha hb with h | h
  · have : a = b := List.IsSuffix.eq_of_length_le h hlen
    exact this ▸ List.suffix_refl b
  · exact h

/-- A string ending in `a` also ends in every suffix of `a`. -/
lemma endswith_mono (s a b : String) (h : endswith s a = true)
    (hba : b.toList <:+ a.toList) : endswith s b = true := by
  rw [endswith, decide_eq_true_eq] at h
  rw [endswith, decide_eq_true_eq]
  exact hba.trans h

/-- A string ending in `a` cannot end in a `b` that is at most as long as
`a` and is not a suffix of `a`. -/
lemma endswith_excl (s a b : String) (ha : endswith s a = true)
    (hlen : b.toList.length ≤ a.toList.length)
    (hnab : ¬ (b.toList <:+ a.toList)) : endswith s b = false := by
  rw [endswith, decide_eq_true_eq] at ha
  rw [endswith, decide_eq_false_iff_not]
  intro hb
  exact hnab (suffix_of_suffix_of_le ha hb hlen)

/-! ## Claim C7: format-derivation equations -/

/-- Claim C7: the format-derivation functions satisfy the spec's equations:
source flag `I` gives `[src]` and flag `P` gives `[pdf, ps, other]` for every
preference and cache flag; empty flag with empty preference and unset cache
flag gives `[pdf, ps, other]`; a file name ending `.ps.gz` (and not
`.tar.gz`, `.dvi.gz` or `.html.gz`) gives `[pdf, ps]`; a file name ending
`.html.gz` gives `[html]`. -/
theorem claim_C7 :
    (∀ (format_pref : Option String) (cache_flag : Bool),
      formats_from_source_flag "I" format_pref cache_flag = ["src"]) ∧
    (∀ (format_pref : Option String) (cache_flag : Bool),
      formats_from_source_flag "P" format_pref cache_flag = ["pdf", "ps", "other"]) ∧
    formats_from_source_flag "" (some "") false = ["pdf", "ps", "other"] ∧
    (∀ name : String, endswith name ".ps.gz" = true →
      endswith name ".tar.gz" = false → endswith name ".dvi.gz" = false →
      endswith name ".html.gz" = false →
      formats_from_source_file_name name = ["pdf", "ps"]) ∧
    (∀ name : String, endswith name ".html.gz" = true →
      formats_from_source_file_name name = ["html"]) := by
  refine ⟨fun _ _ => rfl, fun _ _ => rfl, rfl, ?_, ?_⟩
  · intro name h htar hdvi hhtml
    have hpdf : endswith name ".pdf" = false :=
      endswith_excl name ".ps.gz" ".pdf" h (by decide) (by decide)
    have hne : name ≠ "" := by
      intro he
      rw [he] at h
      exact absurd h (by decide)
    rw [formats_from_source_file_name, if_neg hne, VALID_SOURCE_EXTENSIONS]
    rw [formatsFromExtList, htar, if_neg (by simp)]
    rw [formatsFromExtList, hpdf, if_neg (by simp)]
    rw [formatsFromExtList, h, if_pos rfl]
  · intro name h
    have htar : endswith name ".tar.gz" = false :=
      endswith_excl name ".html.gz" ".tar.gz" h (by decide) (by decide)
    have hpdf : endswith name ".pdf" = false :=
      endswith_excl name ".html.gz" ".pdf" h (by decide) (by decide)
    have hps : endswith name ".ps.gz" = false :=
      endswith_excl name ".html.gz" ".ps.gz" h (by decide) (by decide)
    have hdvi : endswith name ".dvi.gz" = false :=
      endswith_excl name ".html.gz" ".dvi.gz" h (by decide) (by decide)
    have hne : name ≠ "" := by
      intro he
      rw [he] at h
      exact absurd h (by decide)
    have hgz : endswith name ".gz" = true :=
      endswith_mono name ".html.gz" ".gz" h (by decide)
    rw [formats_from_source_file_name, if_neg hne, VALID_SOURCE_EXTENSIONS]
    rw [formatsFromExtList, htar, if_neg (by simp)]
    rw [formatsFromExtList, hpdf, if_neg (by simp)]
    rw [formatsFromExtList, hps, if_neg (by simp)]
    rw [formatsFromExtList, hgz, if_pos rfl]
    show formatsFromExtList name [(".dvi.gz", none), (".html.gz", some ["html"])] = ["html"]
    rw [formatsFromExtList, hdvi, if_neg (by simp)]
    rw [formatsFromExtList, h, if_pos rfl]

/-- Witness for claim C7 at concrete inputs. -/
theorem claim_C7_witness :
    formats_from_source_flag "I" (some "fmt") true = ["src"] ∧
    formats_from_source_flag "P" none false = ["pdf", "ps", "other"] ∧
    formats_from_source_file_name "0704.0001v1.ps.gz" = ["pdf", "ps"] ∧
    formats_from_source_file_name "0704.0001v1.html.gz" = ["html"] :=
  ⟨claim_C7.1 (some "fmt") true, claim_C7.2.1 none false,
   claim_C7.2.2.2.1 "0704.0001v1.ps.gz" (by decide) (by decide) (by decide) (by decide),
   claim_C7.2.2.2.2 "0704.0001v1.html.gz" (by decide)⟩

/-! ## Claim C8: the flag-derivation never returns an empty list -/

/-- Nonemptiness of an if-then-else of nonempty lists. -/
lemma ite_ne_nil {α : Type} {c : Prop} [Decidable c] {a b : List α}
    (ha : a ≠ []) (hb : b ≠ []) : (if c then a else b) ≠ [] := by
  split
  · exact ha
  · exact hb

/-- Claim C8: for every source flag, preference (including the absent one)
and cache flag, `formats_from_source_flag` returns a non-empty list: every
branch of its precedence chain, including the final preference-matching
fallback, produces at least one format name. -/
theorem claim_C8 (source_flag : String) (format_pref : Option String) (cache_flag : Bool) :
    formats_from_source_flag source_flag format_pref cache_flag ≠ [] := by
  unfold formats_from_source_flag
  dsimp only
  exact ite_ne_nil (by simp) <| ite_ne_nil (by simp) <|
    ite_ne_nil (ite_ne_nil (by simp) (by simp)) <| ite_ne_nil (by simp) <|
    ite_ne_nil (by simp) <| ite_ne_nil (by simp) <| ite_ne_nil (by simp) <| by simp

/-! ## Claim C1: current_version -/

/-- Claim C1: when the archived tier contains entries for the identifier
and `N` is the maximum version number parsed from their trailing `vN` name
suffixes (0 for an entry with no such suffix), `current_version` returns
`N + 1`; when no archived entries exist but the current-tier descriptor
exists, it returns 1; when neither exists, it returns `none`. -/
theorem claim_C1 (os : ObjectStore) (arxiv_id : Identifier) :
    (∀ N : Nat,
      (∃ f ∈ os.listKeys (abs_path_orig_parent arxiv_id ++ "/" ++ arxiv_id.filename),
        _path_to_version f = N) →
      (∀ f ∈ os.listKeys (abs_path_orig_parent arxiv_id ++ "/" ++ arxiv_id.filename),
        _path_to_version f ≤ N) →
      current_version os arxiv_id = some (N + 1)) ∧
    (os.listKeys (abs_path_orig_parent arxiv_id ++ "/" ++ arxiv_id.filename) = [] →
      os.existsKey (abs_path_current arxiv_id) = true →
      current_version os arxiv_id = some 1) ∧
    (os.listKeys (abs_path_orig_parent arxiv_id ++ "/" ++ arxiv_id.filename) = [] →
      os.existsKey (abs_path_current arxiv_id) = false →
      current_version os arxiv_id = none) := by
  refine ⟨?_, ?_, ?_⟩
  · intro N hmem hub
    obtain ⟨f, hf, hfN⟩ := hmem
    have hne : os.listKeys (abs_path_orig_parent arxiv_id ++ "/" ++ arxiv_id.filename) ≠ [] := by
      intro h
      rw [h] at hf
      cases hf
    unfold current_version
    rw [if_pos hne]
    have hmax : ((os.listKeys (abs_path_orig_parent arxiv_id ++ "/" ++
        arxiv_id.filename)).map _path_to_version).foldl Nat.max 0 = N := by
      apply Nat.le_antisymm
      · rcases foldl_max_mem ((os.listKeys (abs_path_orig_parent arxiv_id ++ "/" ++
            arxiv_id.filename)).map _path_to_version) 0 with h | h
        · rw [h]
          exact Nat.zero_le N
        · obtain ⟨g, hg, hgv⟩ := List.mem_map.mp h
          rw [← hgv]
          exact hub g hg
      · rw [← hfN]
        exact mem_le_foldl_max _ 0 (_path_to_version f) (List.mem_map_of_mem _ hf)
    rw [hmax]
  · intro hnil hex
    unfold current_version
    rw [if_neg (by simp [hnil]), if_pos hex]
  · intro hnil hnex
    unfold current_version
    rw [if_neg (by simp [hnil]), if_neg (by simp [hnex])]

/-- Store with three archived entries for `0704.0001` (maximum parsed
version 3, one entry without a version suffix). -/
def osC1a : ObjectStore :=
  { listKeys := fun p =>
      if p = "orig/0704.0001/0704.0001" then
        [⟨"orig/0704.0001/0704.0001v1.abs"⟩, ⟨"orig/0704.0001/0704.0001v3.abs"⟩,
         ⟨"orig/0704.0001/0704.0001.gz"⟩]
      else [],
    existsKey := fun _ => false,
    readLines := fun _ => none }

/-- Store with no archived entries and a current descriptor for
`0704.0001`. -/
def osC1b : ObjectStore :=
  { listKeys := fun _ => [],
    existsKey := fun k => k = "ftp/0704.0001/0704.0001.abs",
    readLines := fun _ => none }

/-- Empty store. -/
def osEmpty : ObjectStore :=
  { listKeys := fun _ => [],
    existsKey := fun _ => false,
    readLines := fun _ => none }

/-- Identifier without an explicit version. -/
def idPlain : Identifier := ⟨"0704.0001", none⟩

/-- Witness for claim C1: all three cases at concrete stores. -/
theorem claim_C1_witness :
    current_version osC1a idPlain = some 4 ∧
    current_version osC1b idPlain = some 1 ∧
    current_version osEmpty idPlain = none :=
  ⟨(claim_C1 osC1a idPlain).1 3 ⟨⟨"orig/0704.0001/0704.0001v3.abs"⟩, by decide, by decide⟩
      (by decide),
   (claim_C1 osC1b idPlain).2.1 (by decide) (by decide),
   (claim_C1 osEmpty idPlain).2.2 (by decide) (by decide)⟩

/-! ## Claim C4: descriptor resolution retry -/

/-- Claim C4: for an identifier carrying an explicit version `v` other than
1 (versions are positive, so `2 ≤ v`), with the caller not requesting
"current", `abs_for_id` first probes the archived descriptor at `v`; when
that key is absent it retries exactly once at `v - 1`; when that is also
absent it reports the version-not-found condition. -/
theorem claim_C4 (os : ObjectStore) (arxiv_id : Identifier) (v : Nat)
    (hv : arxiv_id.version = some v) (h2 : 2 ≤ v) :
    (os.existsKey (abs_path_orig arxiv_id v) = true →
      abs_for_id os arxiv_id = Sum.inl ⟨abs_path_orig arxiv_id v⟩) ∧
    (os.existsKey (abs_path_orig arxiv_id v) = false →
      os.existsKey (abs_path_orig arxiv_id (v - 1)) = true →
      abs_for_id os arxiv_id = Sum.inl ⟨abs_path_orig arxiv_id (v - 1)⟩) ∧
    (os.existsKey (abs_path_orig arxiv_id v) = false →
      os.existsKey (abs_path_orig arxiv_id (v - 1)) = false →
      abs_for_id os arxiv_id = Sum.inr AbsConditions.VERSION_NOT_FOUND) := by
  have hhv : arxiv_id.has_version = true := by
    rw [Identifier.has_version, hv]
    rfl
  have hvN : arxiv_id.versionN = v := by
    rw [Identifier.versionN, hv]
    rfl
  have hfv : (arxiv_id.version == some 1) = false := by
    rw [hv]
    simp only [beq_eq_false_iff_ne, ne_eq, Option.some.injEq]
    omega
  refine ⟨?_, ?_, ?_⟩
  · intro hex
    unfold abs_for_id
    rw [hhv, hfv]
    simp only [Bool.or_false, Bool.not_true, Bool.or_self]
    rw [if_neg (by simp), if_pos (by simpa [hvN] using hex)]
    simp [hvN]
  · intro hnex hex
    unfold abs_for_id
    rw [hhv, hfv]
    simp only [Bool.or_false, Bool.not_true, Bool.or_self]
    rw [if_neg (by simp), if_neg (by simpa [hvN] using hnex),
      if_pos (by simpa [hvN] using hex)]
    simp [hvN]
  · intro hnex hnex'
    unfold abs_for_id
    rw [hhv, hfv]
    simp only [Bool.or_false, Bool.not_true, Bool.or_self]
    rw [if_neg (by simp), if_neg (by simpa [hvN] using hnex),
      if_neg (by simpa [hvN] using hnex')]

/-- Identifier `0704.0001` at explicit version 3. -/
def idV3 : Identifier := ⟨"0704.0001", some 3⟩

/-- Store holding only the archived descriptor at version 3. -/
def osC4a : ObjectStore :=
  { listKeys := fun _ => [],
    existsKey := fun k => k = "orig/0704.0001/0704.0001v3.abs",
    readLines := fun _ => none }

/-- Store holding only the archived descriptor at version 2. -/
def osC4b : ObjectStore :=
  { listKeys := fun _ => [],
    existsKey := fun k => k = "orig/0704.0001/0704.0001v2.abs",
    readLines := fun _ => none }

/-- Witness for claim C4: the three probe outcomes at concrete stores. -/
theorem claim_C4_witness :
    abs_for_id osC4a idV3 = Sum.inl ⟨"orig/0704.0001/0704.0001v3.abs"⟩ ∧
    abs_for_id osC4b idV3 = Sum.inl ⟨"orig/0704.0001/0704.0001v2.abs"⟩ ∧
    abs_for_id osEmpty idV3 = Sum.inr AbsConditions.VERSION_NOT_FOUND :=
  ⟨(claim_C4 osC4a idV3 3 rfl (by decide)).1 (by decide),
   (claim_C4 osC4b idV3 3 rfl (by decide)).2.1 (by decide) (by decide),
   (claim_C4 osEmpty idV3 3 rfl (by decide)).2.2 (by decide) (by decide)⟩

/-! ## Claim C2: requesting a version above the current one -/

/-- Trivial date parser used where descriptor parsing is not reached. -/
def pdNone : String → Option Nat := fun _ => none

/-- Store in which the cache tier holds a rendition for version 3 of
`2101.00001` while the archive shows current version 2 (one archived
entry, `v1`): an inconsistent state between tiers. -/
def osC2 : ObjectStore :=
  { listKeys := fun p =>
      if p = "orig/2101.00001/2101.00001" then [⟨"orig/2101.00001/2101.00001v1.abs"⟩] else [],
    existsKey := fun k => k = "ps_cache/pdf/2101.00001v3.pdf",
    readLines := fun _ => none }

/-- Identifier `2101.00001` at explicit version 3. -/
def idC2 : Identifier := ⟨"2101.00001", some 3⟩

/-- Counterexample to claim C2 as stated: the identifier requests version
3, the resolvable current version is 2, yet `dissemination_for_id` returns
the cache-tier object probed first rather than the version-not-found
condition — the cache probe precedes the version check. -/
theorem claim_C2_counterexample :
    idC2.version = some 3 ∧
    current_version osC2 idC2 = some 2 ∧
    dissemination_for_id pdNone osC2 "pdf" idC2 =
      PyResult.ok (Sum.inl ⟨"ps_cache/pdf/2101.00001v3.pdf"⟩) ∧
    dissemination_for_id pdNone osC2 "pdf" idC2 ≠
      PyResult.ok (Sum.inr Conditions.VERSION_NOT_FOUND) := by
  refine ⟨rfl, by decide, by decide, by decide⟩

/-- Claim C2 as amended: for an identifier with an explicit version
strictly greater than the resolvable current version, and with neither the
cache-tier rendition for that version nor the legacy previous-rendition
object present, `dissemination_for_id` for the primary format returns the
version-not-found condition. -/
theorem claim_C2_amended (pd : String → Option Nat) (os : ObjectStore)
    (arxiv_id : Identifier) (v cv : Nat)
    (hv : arxiv_id.version = some v)
    (hcache : os.existsKey (ps_cache_pdf_path "pdf" arxiv_id v) = false)
    (hprev : os.existsKey (previous_pdf_path arxiv_id) = false)
    (hcur : current_version os arxiv_id = some cv)
    (hgt : v > cv) :
    dissemination_for_id pd os "pdf" arxiv_id =
      PyResult.ok (Sum.inr Conditions.VERSION_NOT_FOUND) := by
  have hhv : arxiv_id.has_version = true := by
    rw [Identifier.has_version, hv]
    rfl
  have hvN : arxiv_id.versionN = v := by
    rw [Identifier.versionN, hv]
    rfl
  unfold dissemination_for_id
  rw [if_neg (by simp), hhv]
  simp only [Bool.not_true, Bool.false_eq_true, if_false]
  rw [hvN, if_neg (by simp [hcache]), if_neg (by simp [hprev]), hcur]
  dsimp only
  rw [if_pos hgt]

/-- Store with a single archived entry `v1` for `2101.00001` and nothing
else: current version 2, no cache or previous renditions. -/
def osC2b : ObjectStore :=
  { listKeys := fun p =>
      if p = "orig/2101.00001/2101.00001" then [⟨"orig/2101.00001/2101.00001v1.abs"⟩] else [],
    existsKey := fun _ => false,
    readLines := fun _ => none }

/-- Witness for the amended claim C2 at a concrete store. -/
theorem claim_C2_amended_witness :
    dissemination_for_id pdNone osC2b "pdf" idC2 =
      PyResult.ok (Sum.inr Conditions.VERSION_NOT_FOUND) :=
  claim_C2_amended pdNone osC2b idC2 3 2 rfl (by decide) (by decide) (by decide) (by decide)

/-! ## Claim C3: missing source versus withdrawal in the two entry points -/

/-- Claim C3: with no cached or current rendition present, a resolvable
descriptor, and the shared tail of both entry points reached, the two entry
points agree on the withdrawn branch (source type equal to the ignore code
`I` yields the withdrawn condition in both), differ exactly on the
no-source branch (`dissemination_for_id` reports withdrawn where
`dissemination_for_id_current` reports no-source), and agree again when
source exists (both report unavailable). -/
theorem claim_C3 (pd : String → Option Nat) (os : ObjectStore) (arxiv_id : Identifier)
    (v cv : Nat) (st : String)
    (hv : arxiv_id.version = some v)
    (hc1 : os.existsKey (ps_cache_pdf_path "pdf" arxiv_id v) = false)
    (hprev : os.existsKey (previous_pdf_path arxiv_id) = false)
    (hcur : current_version os arxiv_id = some cv)
    (hle : v ≤ cv)
    (hc2 : os.existsKey (ps_cache_pdf_path "pdf" arxiv_id cv) = false)
    (hcp : os.existsKey (current_pdf_path arxiv_id) = false)
    (habs : ∃ f, abs_for_id os arxiv_id = Sum.inl f)
    (hst : _source_type pd os arxiv_id = PyResult.ok st) :
    (st ≠ "I" → _source_exists os arxiv_id = false →
      dissemination_for_id pd os "pdf" arxiv_id =
        PyResult.ok (Sum.inr Conditions.WITHDRAWN) ∧
      dissemination_for_id_current pd os "pdf" arxiv_id =
        PyResult.ok (Sum.inr Conditions.NO_SOURCE)) ∧
    (st = "I" →
      dissemination_for_id pd os "pdf" arxiv_id =
        PyResult.ok (Sum.inr Conditions.WITHDRAWN) ∧
      dissemination_for_id_current pd os "pdf" arxiv_id =
        PyResult.ok (Sum.inr Conditions.WITHDRAWN)) ∧
    (st ≠ "I" → _source_exists os arxiv_id = true →
      dissemination_for_id pd os "pdf" arxiv_id =
        PyResult.ok (Sum.inr Conditions.UNAVAIABLE) ∧
      dissemination_for_id_current pd os "pdf" arxiv_id =
        PyResult.ok (Sum.inr Conditions.UNAVAIABLE)) := by
  have hhv : arxiv_id.has_version = true := by
    rw [Identifier.has_version, hv]
    rfl
  have hvN : arxiv_id.versionN = v := by
    rw [Identifier.versionN, hv]
    rfl
  have hw : is_withdrawn pd os arxiv_id = PyResult.ok (decide (st = "I")) := by
    rw [is_withdrawn, hst]
  have hid : dissemination_for_id pd os "pdf" arxiv_id =
      (if decide (st = "I") then PyResult.ok (Sum.inr Conditions.WITHDRAWN)
       else if !(_source_exists os arxiv_id) then PyResult.ok (Sum.inr Conditions.WITHDRAWN)
       else PyResult.ok (Sum.inr Conditions.UNAVAIABLE)) := by
    unfold dissemination_for_id
    rw [if_neg (by simp), hhv]
    simp only [Bool.not_true, Bool.false_eq_true, if_false]
    rw [hvN, if_neg (by simp [hc1]), if_neg (by simp [hprev]), hcur]
    dsimp only
    rw [if_neg (by omega), if_neg (by simp [hcp]), hw]
  have hcr : dissemination_for_id_current pd os "pdf" arxiv_id =
      (if decide (st = "I") then PyResult.ok (Sum.inr Conditions.WITHDRAWN)
       else if !(_source_exists os arxiv_id) then PyResult.ok (Sum.inr Conditions.NO_SOURCE)
       else PyResult.ok (Sum.inr Conditions.UNAVAIABLE)) := by
    obtain ⟨f, hf⟩ := habs
    unfold dissemination_for_id_current
    rw [hcur]
    dsimp only
    rw [if_neg (by simp [hc2])]
    unfold dissemination_current_postcache
    rw [if_neg (by simp [hcp]), hf]
    dsimp only
    rw [hw]
  refine ⟨?_, ?_, ?_⟩
  · intro hne hsrc
    have hd : decide (st = "I") = false := decide_eq_false hne
    rw [hid, hcr, hd]
    simp [hsrc]
  · intro heq
    have hd : decide (st = "I") = true := decide_eq_true heq
    rw [hid, hcr, hd]
    simp
  · intro hne hsrc
    have hd : decide (st = "I") = false := decide_eq_false hne
    rw [hid, hcr, hd]
    simp [hsrc]

/-- Identifier `0704.0002` at explicit version 1. -/
def idC3 : Identifier := ⟨"0704.0002", some 1⟩

/-- Date parser accepting every date text. -/
def pdAny : String → Option Nat := fun _ => some 0

/-- Store for the no-source case: a current descriptor with a normal
source type and no source files listed under the current tier. -/
def osC3a : ObjectStore :=
  { listKeys := fun p =>
      if p = "ftp/0704.0002/0704.0002" then [⟨"ftp/0704.0002/0704.0002.abs"⟩] else [],
    existsKey := fun k => k = "ftp/0704.0002/0704.0002.abs",
    readLines := fun k =>
      if k = "ftp/0704.0002/0704.0002.abs" then
        some ["\\\\", "Date: Sat, 1 Jan 2011 (100kb,C)", "\\\\"]
      else none }

/-- Store for the withdrawn case: the descriptor's source type is the
ignore code `I`. -/
def osC3b : ObjectStore :=
  { listKeys := fun p =>
      if p = "ftp/0704.0002/0704.0002" then [⟨"ftp/0704.0002/0704.0002.abs"⟩] else [],
    existsKey := fun k => k = "ftp/0704.0002/0704.0002.abs",
    readLines := fun k =>
      if k = "ftp/0704.0002/0704.0002.abs" then
        some ["\\\\", "Date: Sat, 1 Jan 2011 (100kb,I)", "\\\\"]
      else none }

/-- Store for the unavailable case: a normal source type and a source
package listed under the current tier, but no rendition anywhere. -/
def osC3c : ObjectStore :=
  { listKeys := fun p =>
      if p = "ftp/0704.0002/0704.0002" then
        [⟨"ftp/0704.0002/0704.0002.abs"⟩, ⟨"ftp/0704.0002/0704.0002.tar.gz"⟩]
      else [],
    existsKey := fun k => k = "ftp/0704.0002/0704.0002.abs",
    readLines := fun k =>
      if k = "ftp/0704.0002/0704.0002.abs" then
        some ["\\\\", "Date: Sat, 1 Jan 2011 (100kb,C)", "\\\\"]
      else none }

/-- Witness for claim C3: the three tail branches at concrete stores. -/
theorem claim_C3_witness :
    (dissemination_for_id pdAny osC3a "pdf" idC3 =
        PyResult.ok (Sum.inr Conditions.WITHDRAWN) ∧
      dissemination_for_id_current pdAny osC3a "pdf" idC3 =
        PyResult.ok (Sum.inr Conditions.NO_SOURCE)) ∧
    (dissemination_for_id pdAny osC3b "pdf" idC3 =
        PyResult.ok (Sum.inr Conditions.WITHDRAWN) ∧
      dissemination_for_id_current pdAny osC3b "pdf" idC3 =
        PyResult.ok (Sum.inr Conditions.WITHDRAWN)) ∧
    (dissemination_for_id pdAny osC3c "pdf" idC3 =
        PyResult.ok (Sum.inr Conditions.UNAVAIABLE) ∧
      dissemination_for_id_current pdAny osC3c "pdf" idC3 =
        PyResult.ok (Sum.inr Conditions.UNAVAIABLE)) :=
  ⟨(claim_C3 pdAny osC3a idC3 1 1 "C" rfl (by decide) (by decide) (by decide) (by decide)
      (by decide) (by decide) ⟨⟨"ftp/0704.0002/0704.0002.abs"⟩, by decide⟩ (by decide)).1
      (by decide) (by decide),
   (claim_C3 pdAny osC3b idC3 1 1 "I" rfl (by decide) (by decide) (by decide) (by decide)
      (by decide) (by decide) ⟨⟨"ftp/0704.0002/0704.0002.abs"⟩, by decide⟩ (by decide)).2.1
      rfl,
   (claim_C3 pdAny osC3c idC3 1 1 "C" rfl (by decide) (by decide) (by decide) (by decide)
      (by decide) (by decide) ⟨⟨"ftp/0704.0002/0704.0002.abs"⟩, by decide⟩ (by decide)).2.2
      (by decide) (by decide)⟩

/-! ## Claim C5: descriptor parsing round-trip -/

/-- Well-formedness of a date line for the parser: it matches the pattern,
its date text parses, and the parenthesized size group participates. -/
def GoodLine (pd : String → Option Nat) (l : String) : Prop :=
  ∃ g : DateGroups, matchDateLine l = some g ∧ (pd g.date).isSome ∧ g.sizeSrc.isSome

/-- Badness of a date line for the parser: no pattern match, an
unparseable date, or a missing size group. -/
def BadLine (pd : String → Option Nat) (l : String) : Prop :=
  matchDateLine l = none ∨
    ∃ g : DateGroups, matchDateLine l = some g ∧ (pd g.date = none ∨ g.sizeSrc = none)

/-- The parsing loop succeeds on well-formed lines, producing one record
per line with version numbers continuing the running count. -/
lemma parseEntriesAux_ok (pd : String → Option Nat) :
    ∀ (ls : List String) (n : Nat), (∀ l ∈ ls, GoodLine pd l) →
    ∃ ves : List VersionEntry, parseEntriesAux pd n ls = PyResult.ok ves ∧
      ves.length = ls.length ∧
      ∀ i (hi : i < ves.length), (ves.get ⟨i, hi⟩).version = n + i + 1 := by
  intro ls
  induction ls with
  | nil =>
    intro n _
    exact ⟨[], rfl, rfl, fun i hi => absurd hi (by simp)⟩
  | cons l rest ih =>
    intro n h
    obtain ⟨g, hg, hpd, hsz⟩ := h l (List.mem_cons_self l rest)
    obtain ⟨d, hd⟩ := Option.isSome_iff_exists.mp hpd
    obtain ⟨⟨sz, st⟩, hp⟩ := Option.isSome_iff_exists.mp hsz
    obtain ⟨ves, hves, hlen, hver⟩ := ih (n + 1) (fun x hx => h x (List.mem_cons_of_mem l hx))
    refine ⟨{ raw := l, source_type := st, size_kilobytes := natOfDigits sz.toList,
              submitted_date := d, version := n + 1 } :: ves, ?_, ?_, ?_⟩
    · simp only [parseEntriesAux, hg, hd, hp, hves]
    · simpa using hlen
    · intro i hi
      cases i with
      | zero => rfl
      | succ j =>
        have hj : j < ves.length := by
          simp only [List.length_cons] at hi
          omega
        simp only [List.get_cons_succ]
        rw [hver j hj]
        omega

/-- The parsing loop raises on a list containing a bad line, whatever the
running count. -/
lemma parseEntriesAux_raise (pd : String → Option Nat) :
    ∀ (ls : List String) (n : Nat), (∃ l ∈ ls, BadLine pd l) →
    ∃ e, parseEntriesAux pd n ls = PyResult.raise e := by
  intro ls
  induction ls with
  | nil =>
    intro n h
    obtain ⟨l, hl, _⟩ := h
    cases hl
  | cons l rest ih =>
    intro n h
    cases hm : matchDateLine l with
    | none => exact ⟨msgNoMatch, by simp [parseEntriesAux, hm]⟩
    | some g =>
      cases hd : pd g.date with
      | none => exact ⟨msgBadDate, by simp [parseEntriesAux, hm, hd]⟩
      | some d =>
        cases hs : g.sizeSrc with
        | none => exact ⟨msgIntNone, by simp [parseEntriesAux, hm, hd, hs]⟩
        | some p =>
          obtain ⟨sz, st⟩ := p
          have hrest : ∃ l' ∈ rest, BadLine pd l' := by
            obtain ⟨l', hl', hbad⟩ := h
            rcases List.mem_cons.mp hl' with rfl | hmem
            · rcases hbad with hb | ⟨g', hg', hb⟩
              · rw [hm] at hb
                cases hb
              · rw [hm] at hg'
                injection hg' with hgg
                subst hgg
                rcases hb with hb | hb
                · rw [hd] at hb
                  cases hb
                · rw [hs] at hb
                  cases hb
            · exact ⟨l', hmem, hbad⟩
          obtain ⟨e, he⟩ := ih (n + 1) hrest
          exact ⟨e, by simp [parseEntriesAux, hm, hd, hs, he]⟩

/-- Claim C5 (amended): a list of `K` date lines that all match the
pattern, have parseable dates and carry the size group parses to the count
`K` and exactly `K` records whose version numbers are `1..K` in line
order; and any input containing a line that fails to match or whose date
does not parse makes the parser raise a hard error, returning no partial
list. -/
theorem claim_C5 (pd : String → Option Nat) (ls : List String) :
    ((∀ l ∈ ls, GoodLine pd l) →
      ∃ ves : List VersionEntry,
        _parse_version_entries pd ls = PyResult.ok (ls.length, ves) ∧
        ves.length = ls.length ∧
        ∀ i (hi : i < ves.length), (ves.get ⟨i, hi⟩).version = i + 1) ∧
    ((∃ l ∈ ls, matchDateLine l = none ∨
        ∃ g : DateGroups, matchDateLine l = some g ∧ pd g.date = none) →
      ∃ e, _parse_version_entries pd ls = PyResult.raise e) := by
  constructor
  · intro h
    obtain ⟨ves, hves, hlen, hver⟩ := parseEntriesAux_ok pd ls 0 h
    refine ⟨ves, ?_, hlen, ?_⟩
    · rw [_parse_version_entries, hves]
    · intro i hi
      have := hver i hi
      omega
  · intro h
    have hb : ∃ l ∈ ls, BadLine pd l := by
      obtain ⟨l, hl, hbad⟩ := h
      refine ⟨l, hl, ?_⟩
      rcases hbad with hb | ⟨g, hg, hb⟩
      · exact Or.inl hb
      · exact Or.inr ⟨g, hg, Or.inl hb⟩
    obtain ⟨e, he⟩ := parseEntriesAux_raise pd ls 0 hb
    rw [_parse_version_entries, he]
    exact ⟨e, rfl⟩

/-- Date parser for the concrete descriptor lines used in the witnesses:
it accepts the date texts appearing there. -/
def pdDates : String → Option Nat := fun s =>
  if s = "1 Jan 2011" then some 1 else
  if s = "2 Jan 2011" then some 2 else
  if s = "3 Feb 2012" then some 3 else
  if s = "4 Mar 2013" then some 4 else none

/-- Counterexample to claim C5 as stated: the line `Date: 2 Jan 2011`
matches the pattern and its date parses, yet the parser raises (Python's
`int(None)` on the absent size group) instead of returning one record. -/
theorem claim_C5_counterexample :
    matchDateLine "Date: 2 Jan 2011" = some ⟨none, "2 Jan 2011", none⟩ ∧
    pdDates "2 Jan 2011" = some 2 ∧
    _parse_version_entries pdDates ["Date: 2 Jan 2011"] = PyResult.raise msgIntNone := by
  refine ⟨by decide, by decide, by decide⟩

/-- Witness for claim C5: both halves at concrete line lists. -/
theorem claim_C5_witness :
    (∃ ves : List VersionEntry,
      _parse_version_entries pdDates
        ["Date: 1 Jan 2011 (10kb)", "Date (revised v2): 2 Jan 2011 (20kb,D)"] =
        PyResult.ok (2, ves) ∧
      ves.length = 2 ∧
      ∀ i (hi : i < ves.length), (ves.get ⟨i, hi⟩).version = i + 1) ∧
    (∃ e, _parse_version_entries pdDates ["Date: not a date (10kb)"] = PyResult.raise e) := by
  constructor
  · have h := (claim_C5 pdDates
      ["Date: 1 Jan 2011 (10kb)", "Date (revised v2): 2 Jan 2011 (20kb,D)"]).1 ?_
    · simpa using h
    · intro l hl
      rcases List.mem_cons.mp hl with rfl | hl
      · exact ⟨⟨none, "1 Jan 2011", some ("10", "")⟩, by decide, by decide, by decide⟩
      rcases List.mem_cons.mp hl with rfl | hl
      · exact ⟨⟨some "v2", "2 Jan 2011", some ("20", "D")⟩, by decide, by decide, by decide⟩
      cases hl
  · exact (claim_C5 pdDates ["Date: not a date (10kb)"]).2
      ⟨"Date: not a date (10kb)", List.mem_cons_self _ _,
        Or.inr ⟨⟨none, "not a date", some ("10", "")⟩, by decide, by decide⟩⟩

/-! ## Claim C6: absent source-type token -/

/-- Claim C6 (amended): when a matching date line carries the parenthesized
size group but its trailing source-type token is empty, the parser
produces a record whose source-type field is the empty string; when the
whole parenthesized group is absent, the parser instead raises a hard
error and produces no record. -/
theorem claim_C6 (pd : String → Option Nat) (l : String) (g : DateGroups)
    (sz : String) (d : Nat) (hm : matchDateLine l = some g) :
    (g.sizeSrc = some (sz, "") → pd g.date = some d →
      _parse_version_entries pd [l] =
        PyResult.ok (1, [{ raw := l, source_type := "",
                           size_kilobytes := natOfDigits sz.toList,
                           submitted_date := d, version := 1 }])) ∧
    (g.sizeSrc = none → ∃ e, _parse_version_entries pd [l] = PyResult.raise e) := by
  constructor
  · intro hs hd
    simp only [_parse_version_entries, parseEntriesAux, hm, hd, hs]
    rfl
  · intro hs
    cases hd : pd g.date with
    | none => exact ⟨msgBadDate, by simp [_parse_version_entries, parseEntriesAux, hm, hd]⟩
    | some d' => exact ⟨msgIntNone, by simp [_parse_version_entries, parseEntriesAux, hm, hd, hs]⟩

/-- Counterexample to claim C6 as stated: `Date: 3 Feb 2012` matches the
pattern with the parenthesized group absent and a parseable date, yet the
parser raises and produces no record at all (in particular none whose
source-type field is the empty string). -/
theorem claim_C6_counterexample :
    matchDateLine "Date: 3 Feb 2012" = some ⟨none, "3 Feb 2012", none⟩ ∧
    pdDates "3 Feb 2012" = some 3 ∧
    _parse_version_entries pdDates ["Date: 3 Feb 2012"] = PyResult.raise msgIntNone := by
  refine ⟨by decide, by decide, by decide⟩

/-- Witness for claim C6: a line with an empty source-type token inside a
present size group yields a record with empty source type; a line with the
group absent raises. -/
theorem claim_C6_witness :
    _parse_version_entries pdDates ["Date: 4 Mar 2013 (100kb)"] =
      PyResult.ok (1, [{ raw := "Date: 4 Mar 2013 (100kb)", source_type := "",
                         size_kilobytes := 100, submitted_date := 4, version := 1 }]) ∧
    (∃ e, _parse_version_entries pdDates ["Date: 4 Mar 2013"] = PyResult.raise e) :=
  ⟨(claim_C6 pdDates "Date: 4 Mar 2013 (100kb)" ⟨none, "4 Mar 2013", some ("100", "")⟩
      "100" 4 (by decide)).1 (by decide) (by decide),
   (claim_C6 pdDates "Date: 4 Mar 2013" ⟨none, "4 Mar 2013", none⟩
      "" 0 (by decide)).2 (by decide)⟩

/-! ## Claim C9: the current-path entry point and the format argument -/

/-- The parsing loop raises only one of its three parse-error messages. -/
lemma parseEntriesAux_raise_mem (pd : String → Option Nat) :
    ∀ (ls : List String) (n : Nat) (e : String),
    parseEntriesAux pd n ls = PyResult.raise e →
    e = msgNoMatch ∨ e = msgBadDate ∨ e = msgIntNone := by
  intro ls
  induction ls with
  | nil =>
    intro n e h
    cases h
  | cons l rest ih =>
    intro n e h
    rw [parseEntriesAux] at h
    cases hm : matchDateLine l with
    | none =>
      rw [hm] at h
      injection h with he
      exact Or.inl he.symm
    | some g =>
      rw [hm] at h
      dsimp only at h
      cases hd : pd g.date with
      | none =>
        rw [hd] at h
        injection h with he
        exact Or.inr (Or.inl he.symm)
      | some d =>
        rw [hd] at h
        dsimp only at h
        cases hs : g.sizeSrc with
        | none =>
          rw [hs] at h
          injection h with he
          exact Or.inr (Or.inr he.symm)
        | some p =>
          obtain ⟨sz, st⟩ := p
          rw [hs] at h
          dsimp only at h
          cases hrec : parseEntriesAux pd (n + 1) rest with
          | raise e' =>
            rw [hrec] at h
            injection h with he
            exact he ▸ ih (n + 1) e' hrec
          | ok ves =>
            rw [hrec] at h
            cases h

/-- The source-type lookup raises only a message from the fixed set of
open, parse and index errors. -/
lemma _source_type_raise_mem (pd : String → Option Nat) (os : ObjectStore)
    (arxiv_id : Identifier) (e : String)
    (h : _source_type pd os arxiv_id = PyResult.raise e) :
    e = msgNoFile ∨ e = msgNoMatch ∨ e = msgBadDate ∨ e = msgIntNone ∨ e = msgIndex := by
  rw [_source_type] at h
  cases hr : os.readLines (abs_path_current arxiv_id) with
  | none =>
    rw [hr] at h
    injection h with he
    exact Or.inl he.symm
  | some ls =>
    rw [hr] at h
    dsimp only at h
    cases hp : _parse_version_entries pd (getDatelines ls) with
    | raise e' =>
      rw [hp] at h
      injection h with he
      rw [_parse_version_entries] at hp
      cases ha : parseEntriesAux pd 0 (getDatelines ls) with
      | raise e'' =>
        rw [ha] at hp
        injection hp with he2
        have hmem := parseEntriesAux_raise_mem pd (getDatelines ls) 0 e'' ha
        rw [he2, he] at hmem
        rcases hmem with h1 | h1 | h1
        · exact Or.inr (Or.inl h1)
        · exact Or.inr (Or.inr (Or.inl h1))
        · exact Or.inr (Or.inr (Or.inr (Or.inl h1)))
      | ok ves =>
        rw [ha] at hp
        cases hp
    | ok res =>
      obtain ⟨n, versions⟩ := res
      rw [hp] at h
      dsimp only at h
      by_cases hv : arxiv_id.has_version = true
      · rw [if_pos hv] at h
        by_cases hlen : versions.length < arxiv_id.versionN
        · rw [if_pos hlen] at h
          cases h
        · rw [if_neg hlen] at h
          by_cases hz : arxiv_id.versionN = 0
          · rw [if_pos hz] at h
            cases hl : versions.getLast? with
            | none =>
              rw [hl] at h
              injection h with he
              exact Or.inr (Or.inr (Or.inr (Or.inr he.symm)))
            | some ve =>
              rw [hl] at h
              cases h
          · rw [if_neg hz] at h
            cases hl : versions.get? (arxiv_id.versionN - 1) with
            | none =>
              rw [hl] at h
              injection h with he
              exact Or.inr (Or.inr (Or.inr (Or.inr he.symm)))
            | some ve =>
              rw [hl] at h
              cases h
      · rw [if_neg hv] at h
        cases hl : versions.getLast? with
        | none =>
          rw [hl] at h
          injection h with he
          exact Or.inr (Or.inr (Or.inr (Or.inr he.symm)))
        | some ve =>
          rw [hl] at h
          cases h

/-- A raise of the withdrawal check is a raise of the source-type lookup. -/
lemma is_withdrawn_raise (pd : String → Option Nat) (os : ObjectStore)
    (arxiv_id : Identifier) (e : String)
    (h : is_withdrawn pd os arxiv_id = PyResult.raise e) :
    _source_type pd os arxiv_id = PyResult.raise e := by
  rw [is_withdrawn] at h
  cases hs : _source_type pd os arxiv_id with
  | raise e' =>
    rw [hs] at h
    injection h with he
    rw [he]
  | ok st =>
    rw [hs] at h
    cases h

/-- A raise of the post-cache tail is a raise of the source-type lookup. -/
lemma postcache_raise (pd : String → Option Nat) (os : ObjectStore)
    (arxiv_id : Identifier) (e : String)
    (h : dissemination_current_postcache pd os arxiv_id = PyResult.raise e) :
    _source_type pd os arxiv_id = PyResult.raise e := by
  rw [dissemination_current_postcache] at h
  dsimp only at h
  by_cases hk : os.existsKey (current_pdf_path arxiv_id) = true
  · rw [if_pos hk] at h
    cases h
  · rw [if_neg hk] at h
    have hw : is_withdrawn pd os arxiv_id = PyResult.raise e := by
      cases habs : abs_for_id os arxiv_id with
      | inl f =>
        rw [habs] at h
        dsimp only at h
        cases hwd : is_withdrawn pd os arxiv_id with
        | raise e' =>
          rw [hwd] at h
          injection h with he
          rw [he]
        | ok w =>
          rw [hwd] at h
          dsimp only at h
          by_cases hb : w = true
          · rw [if_pos hb] at h
            cases h
          · rw [if_neg hb] at h
            split at h <;> cases h
      | inr c =>
        cases c with
        | ARTICLE_NOT_FOUND =>
          rw [habs] at h
          cases h
        | VERSION_NOT_FOUND =>
          rw [habs] at h
          cases h
        | NO_ID =>
          rw [habs] at h
          dsimp only at h
          cases hwd : is_withdrawn pd os arxiv_id with
          | raise e' =>
            rw [hwd] at h
            injection h with he
            rw [he]
          | ok w =>
            rw [hwd] at h
            dsimp only at h
            by_cases hb : w = true
            · rw [if_pos hb] at h
              cases h
            · rw [if_neg hb] at h
              split at h <;> cases h
    exact is_withdrawn_raise pd os arxiv_id e hw

/-- Claim C9: `dissemination_for_id_current` performs no validation of its
format argument.  The first part shows the contrast: `dissemination_for_id`
raises the unsupported-format error for every non-`pdf` format.  The second
part shows the current-path entry point never raises that error, for any
format string.  The third shows the format argument influences only the
cache-tier probe: a hit returns the format-keyed cache object, and on a
miss the result equals the format-independent remainder
`dissemination_current_postcache`. -/
theorem claim_C9 (pd : String → Option Nat) (os : ObjectStore) (arxiv_id : Identifier)
    (format : String) :
    (format ≠ "pdf" →
      dissemination_for_id pd os format arxiv_id = PyResult.raise msgUnsupported) ∧
    (∀ e, dissemination_for_id_current pd os format arxiv_id = PyResult.raise e →
      e ≠ msgUnsupported) ∧
    (∀ cv, current_version os arxiv_id = some cv →
      (os.existsKey (ps_cache_pdf_path format arxiv_id cv) = true →
        dissemination_for_id_current pd os format arxiv_id =
          PyResult.ok (Sum.inl ⟨ps_cache_pdf_path format arxiv_id cv⟩)) ∧
      (os.existsKey (ps_cache_pdf_path format arxiv_id cv) = false →
        dissemination_for_id_current pd os format arxiv_id =
          dissemination_current_postcache pd os arxiv_id)) := by
  refine ⟨?_, ?_, ?_⟩
  · intro hf
    rw [dissemination_for_id, if_pos hf]
  · intro e h
    rw [dissemination_for_id_current] at h
    cases hcv : current_version os arxiv_id with
    | none =>
      rw [hcv] at h
      cases h
    | some cv =>
      rw [hcv] at h
      dsimp only at h
      by_cases hk : os.existsKey (ps_cache_pdf_path format arxiv_id cv) = true
      · rw [if_pos hk] at h
        cases h
      · rw [if_neg hk] at h
        have := _source_type_raise_mem pd os arxiv_id e (postcache_raise pd os arxiv_id e h)
        rcases this with rfl | rfl | rfl | rfl | rfl <;> decide
  · intro cv hcv
    constructor
    · intro hk
      rw [dissemination_for_id_current, hcv]
      dsimp only
      rw [if_pos hk]
    · intro hk
      rw [dissemination_for_id_current, hcv]
      dsimp only
      rw [if_neg (by simp [hk])]

/-- Identifier `0704.0003` without an explicit version. -/
def idC9 : Identifier := ⟨"0704.0003", none⟩

/-- Store with a current descriptor whose content cannot be opened: the
current-path tail raises the open error (never the unsupported-format
one). -/
def osC9a : ObjectStore :=
  { listKeys := fun _ => [],
    existsKey := fun k => k = "ftp/0704.0003/0704.0003.abs",
    readLines := fun _ => none }

/-- Store with a current descriptor and a cache-tier rendition at the
resolved current version 1. -/
def osC9b : ObjectStore :=
  { listKeys := fun _ => [],
    existsKey := fun k =>
      k = "ftp/0704.0003/0704.0003.abs" || k = "ps_cache/pdf/0704.0003v1.pdf",
    readLines := fun _ => none }

/-- Witness for claim C9: the versioned entry point raises the
unsupported-format error for format `ps`; the current-path entry point
raises only the open error on the same store; the cache hit returns the
format-keyed object; and a cache miss reduces to the format-independent
tail. -/
theorem claim_C9_witness :
    dissemination_for_id pdNone osC9a "ps" idC9 = PyResult.raise msgUnsupported ∧
    msgNoFile ≠ msgUnsupported ∧
    dissemination_for_id_current pdNone osC9b "pdf" idC9 =
      PyResult.ok (Sum.inl ⟨"ps_cache/pdf/0704.0003v1.pdf"⟩) ∧
    dissemination_for_id_current pdNone osC9a "pdf" idC9 =
      dissemination_current_postcache pdNone osC9a idC9 :=
  ⟨(claim_C9 pdNone osC9a idC9 "ps").1 (by decide),
   (claim_C9 pdNone osC9a idC9 "pdf").2.1 msgNoFile (by decide),
   ((claim_C9 pdNone osC9b idC9 "pdf").2.2 1 (by decide)).1 (by decide),
   ((claim_C9 pdNone osC9a idC9 "pdf").2.2 1 (by decide)).2 (by decide)⟩

/-! ## Claim C10: partiality of the source-type lookup -/

/-- Claim C10: for an identifier without an explicit version whose current
descriptor opens but whose delimited section contains no date lines,
`_source_type` raises the index error instead of returning a value; the
empty-string fallback is returned (from the parsed records) exactly by the
branch in which an explicit requested version exceeds the number of parsed
records. -/
theorem claim_C10 (pd : String → Option Nat) (os : ObjectStore) (arxiv_id : Identifier) :
    (arxiv_id.version = none →
      ∀ ls, os.readLines (abs_path_current arxiv_id) = some ls →
      getDatelines ls = [] →
      _source_type pd os arxiv_id = PyResult.raise msgIndex) ∧
    (∀ v ls n ves, arxiv_id.version = some v →
      os.readLines (abs_path_current arxiv_id) = some ls →
      _parse_version_entries pd (getDatelines ls) = PyResult.ok (n, ves) →
      ves.length < v →
      _source_type pd os arxiv_id = PyResult.ok "") := by
  constructor
  · intro hv ls hrl hdl
    have hhv : arxiv_id.has_version = false := by
      rw [Identifier.has_version, hv]
      rfl
    rw [_source_type, hrl]
    dsimp only
    rw [hdl]
    show (match _parse_version_entries pd [] with
      | PyResult.raise e => PyResult.raise e
      | PyResult.ok (_, versions) => _) = _
    rw [show _parse_version_entries pd [] = PyResult.ok (0, []) from rfl]
    dsimp only
    rw [hhv]
    rfl
  · intro v ls n ves hv hrl hpe hlt
    have hhv : arxiv_id.has_version = true := by
      rw [Identifier.has_version, hv]
      rfl
    have hvN : arxiv_id.versionN = v := by
      rw [Identifier.versionN, hv]
      rfl
    rw [_source_type, hrl]
    dsimp only
    rw [hpe]
    dsimp only
    rw [hhv, hvN]
    simp only [if_true]
    rw [if_pos hlt]

/-- Identifier `0704.0004` without an explicit version. -/
def idC10a : Identifier := ⟨"0704.0004", none⟩

/-- Identifier `0704.0004` at explicit version 2. -/
def idC10b : Identifier := ⟨"0704.0004", some 2⟩

/-- Store whose current descriptor has a delimited section with zero date
lines. -/
def osC10a : ObjectStore :=
  { listKeys := fun _ => [],
    existsKey := fun k => k = "ftp/0704.0004/0704.0004.abs",
    readLines := fun k =>
      if k = "ftp/0704.0004/0704.0004.abs" then some ["\\\\", "Title: x", "\\\\"] else none }

/-- Store whose current descriptor has one date line. -/
def osC10b : ObjectStore :=
  { listKeys := fun _ => [],
    existsKey := fun k => k = "ftp/0704.0004/0704.0004.abs",
    readLines := fun k =>
      if k = "ftp/0704.0004/0704.0004.abs" then
        some ["\\\\", "Date: 1 Jan 2011 (10kb,C)", "\\\\"]
      else none }

/-- Witness for claim C10: the index error on the empty section without an
explicit version, and the empty-string fallback for a requested version
above the single parsed record. -/
theorem claim_C10_witness :
    _source_type pdAny osC10a idC10a = PyResult.raise msgIndex ∧
    _source_type pdAny osC10b idC10b = PyResult.ok "" :=
  ⟨(claim_C10 pdAny osC10a idC10a).1 rfl ["\\\\", "Title: x", "\\\\"] (by decide) (by decide),
   (claim_C10 pdAny osC10b idC10b).2 2 ["\\\\", "Date: 1 Jan 2011 (10kb,C)", "\\\\"] 1
     [{ raw := "Date: 1 Jan 2011 (10kb,C)", source_type := "C", size_kilobytes := 10,
        submitted_date := 0, version := 1 }] rfl (by decide) (by decide) (by decide)⟩
